import Mathlib

/-!
# SoilLogger wake-cycle verification

Shallow embedding of `src/esp32_soil_temp_http.ino/esp32_soil_temp_http.ino.ino`,
the ESP32 soil-moisture/temperature logger.  External effects (WiFi polls,
NTP time reads, HTTP responses, the analog sensor and the DS18B20) are
supplied by a `World` of oracles; every modelled routine returns its result
together with the list of observable events (network POSTs, blocking pauses,
display writes, wake-source arming, deep sleep) it would emit, in order.

Floats are modelled by `FVal`: either NaN or an exact rational.  The only
float operations the modelled code performs are `<` and `>` comparisons
(inside Arduino `constrain` and the validation gate of `sendData`), and under
IEEE-754 semantics every ordered comparison involving NaN is false, which is
exactly what `flt`/`fgt` implement.
-/

namespace SoilLogger

/-- Model of a float value: NaN or a finite value (exact rational). -/
inductive FVal where
  | nan : FVal
  | fin (x : ℚ) : FVal
deriving DecidableEq, Repr

/-- IEEE-style `<`: false whenever either side is NaN. -/
def flt : FVal → FVal → Bool
  | FVal.fin a, FVal.fin b => decide (a < b)
  | _, _ => false

/-- IEEE-style `>`: false whenever either side is NaN. -/
def fgt : FVal → FVal → Bool
  | FVal.fin a, FVal.fin b => decide (b < a)
  | _, _ => false

/-- Arduino `constrain(amt, low, high) = (amt<low)?low:((amt>high)?high:amt)`. -/
def constrain (amt lo hi : FVal) : FVal :=
  if flt amt lo then lo else if fgt amt hi then hi else amt

/-- `MAX_RETRIES` constant (line 70 of the sketch). -/
def MAX_RETRIES : Nat := 3

/-- `DISPLAY_DURATION_MS` constant (line 68 of the sketch). -/
def DISPLAY_DURATION_MS : Nat := 60000

/-- `SLEEP_INTERVAL_SEC` constant (line 67 of the sketch). -/
def SLEEP_INTERVAL_SEC : Nat := 3600

/-- The JSON body serialized by `authenticate` from the device credentials
(lines 163-166 of the sketch). -/
def authBody : String :=
  "\x7b\"username\":\"DEVICE_USERNAME\",\"password\":\"DEVICE_PASSWORD\"\x7d"

/-- The JSON document `sendData` builds (lines 216-221): an optional
`timestamp` field plus the two sensor values. -/
structure Payload where
  timestamp : Option String
  soil_moisture : FVal
  temperature : FVal
deriving DecidableEq, Repr

/-- Observable events of one wake cycle, in program order. -/
inductive Event where
  | authPost (body : String) : Event
  | dataPost (authHeader : String) (payload : Payload) : Event
  | pause (ms : Nat) : Event
  | displayShow (moisture temperature : FVal) : Event
  | armExt0 : Event
  | armTimer : Event
  | sleep : Event
deriving DecidableEq, Repr

/-- Oracles for everything outside the sketch: WiFi status per poll, the
`time(nullptr)` value per read, HTTP status codes per POST (indexed by
attempt), the token field of the auth response, the formatted time string,
and the two raw sensor readings. -/
structure World where
  wifi : Nat → Bool
  timeAt : Nat → Nat
  authStatus : Nat → Int
  tokenField : String
  fmtTime : String
  rawMoisture : Int
  tempReading : FVal
  dataStatus : Nat → Int

/-- An event is a network call iff it is an HTTP POST (auth or data). -/
def isNetworkCall : Event → Bool
  | Event.authPost _ => true
  | Event.dataPost _ _ => true
  | _ => false

/-- Number of network calls in a trace. -/
def networkCalls (evs : List Event) : Nat :=
  (evs.filter isNetworkCall).length

/-- Number of telemetry POSTs (delivery attempts that reached the network). -/
def dataPosts (evs : List Event) : Nat :=
  (evs.filter fun e => match e with
    | Event.dataPost _ _ => true
    | _ => false).length

/-- Durations of the blocking pauses in a trace, in order. -/
def pausesOf (evs : List Event) : List Nat :=
  evs.filterMap fun e => match e with
    | Event.pause ms => some ms
    | _ => none

/-- Number of display renders in a trace. -/
def displayCount (evs : List Event) : Nat :=
  (evs.filter fun e => match e with
    | Event.displayShow _ _ => true
    | _ => false).length

/-- `connectWiFi` (lines 136-141): `while (WiFi.status() != WL_CONNECTED)
delay(500);`.  The loop has no timeout, so the model takes a fuel bound on
the number of polls; `none` means the loop was still spinning when the fuel
ran out. -/
def connectWiFiAux (wifi : Nat → Bool) : Nat → Nat → Option (List Event)
  | _, 0 => none
  | k, fuel + 1 =>
    if wifi k then some []
    else (connectWiFiAux wifi (k + 1) fuel).map (fun evs => Event.pause 500 :: evs)

/-- The NTP polling loop of `syncTimeIfNeeded` (lines 147-150):
`now = time(); start = millis(); while (now < 8*3600 && millis()-start < 5000)
\x7b delay(500); now = time(); \x7d; ntpSynced = now >= 8*3600;`.
`fuel` is the number of 500 ms delays still allowed by the 5000 ms budget
(10 at entry); `k` indexes the `time(nullptr)` reads. -/
def ntpPoll (timeAt : Nat → Nat) : Nat → Nat → Bool × List Event
  | k, 0 => (decide (8 * 3600 ≤ timeAt k), [])
  | k, fuel + 1 =>
    if 8 * 3600 ≤ timeAt k then (true, [])
    else
      let rest := ntpPoll timeAt (k + 1) fuel
      (rest.1, Event.pause 500 :: rest.2)

/-- `syncTimeIfNeeded` (lines 143-153): the NTP poll runs only in modes 0
(NTP) and 2 (Hybrid); in mode 1 (Server) `ntpSynced` keeps its boot value
`false`.  Returns the resulting `ntpSynced` flag and the emitted pauses. -/
def syncTimeIfNeeded (mode : Nat) (timeAt : Nat → Nat) : Bool × List Event :=
  if mode = 0 ∨ mode = 2 then ntpPoll timeAt 0 10 else (false, [])

/-- `authenticate` (lines 158-177).  On HTTP 200 the token field of the
response becomes `jwtToken`; otherwise `jwtToken` keeps its boot value `""`
and the failure log line `Serial.printf("Auth failed: %d", http.POST(body))`
invokes `http.POST(body)` a second time, whose response is used only for the
logged status code.  Returns the resulting `jwtToken` and the POST events. -/
def authenticate (w : World) : String × List Event :=
  if w.authStatus 0 = 200 then
    (w.tokenField, [Event.authPost authBody])
  else
    ("", [Event.authPost authBody, Event.authPost authBody])

/-- `readSensors` (lines 182-189): moisture is computed from the raw ADC
count and clamped into [0,100]; temperature is the DS18B20 reading clamped
into [-40,85] (a NaN reading passes `constrain` unchanged, since both of its
comparisons are false). -/
def readSensors (w : World) : FVal × FVal :=
  (constrain (FVal.fin ((4095 - (w.rawMoisture : ℚ)) * 100 / 4095))
      (FVal.fin 0) (FVal.fin 100),
   constrain w.tempReading (FVal.fin (-40)) (FVal.fin 85))

/-- The validation gate of `sendData` (line 206):
`moisture < 0 || moisture > 100 || temperature < -40 || temperature > 85`. -/
def outOfRange (m t : FVal) : Bool :=
  flt m (FVal.fin 0) || fgt m (FVal.fin 100) ||
  flt t (FVal.fin (-40)) || fgt t (FVal.fin 85)

/-- The JSON document built at lines 216-221:
`String ts = ntpSynced ? getFormattedTime() : String(); if (ts.length())
doc["timestamp"] = ts;` then the two sensor fields.
`getFormattedTime` is not defined under `src/`; its result is supplied by
the world oracle `fmtTime` (see `C6_timestamp_iff_trust`). -/
def mkPayload (ntpSynced : Bool) (fmtTime : String) (m t : FVal) : Payload :=
  let ts := if ntpSynced then fmtTime else ""
  { timestamp := if ts.length ≠ 0 then some ts else none
    soil_moisture := m
    temperature := t }

/-- `sendData` (lines 205-226): the validation gate aborts before any
network I/O; otherwise one POST with header `Authorization: Bearer <token>`
is made and success is `code == 201 || code == 200`.  `k` is the attempt
index selecting the HTTP response from the oracle. -/
def sendData (w : World) (k : Nat) (ntpSynced : Bool) (token : String)
    (m t : FVal) : Bool × List Event :=
  if outOfRange m t then (false, [])
  else
    let code := w.dataStatus k
    ((code = 201 || code = 200 : Bool),
     [Event.dataPost ("Bearer " ++ token) (mkPayload ntpSynced w.fmtTime m t)])

/-- Delivery outcome in the spec's vocabulary: `Sent` when an attempt
succeeded, `Abandoned` when the loop exhausted `MAX_RETRIES` attempts. -/
inductive Outcome where
  | Sent : Outcome
  | Abandoned : Outcome
deriving DecidableEq, Repr

/-- The body of `sendDataWithRetry`'s while loop (lines 229-239):
`while (attempt < MAX_RETRIES) \x7b if (sendData(..)) return;
delay(delayMs); delayMs *= 2; attempt++; \x7d`.  `fuel` is
`MAX_RETRIES - attempt`.  Note the `delay(delayMs)` runs after every failed
attempt, the final one included. -/
def retryLoop (w : World) (ntpSynced : Bool) (token : String) (m t : FVal) :
    Nat → Nat → Nat → Outcome × List Event
  | 0, _, _ => (Outcome.Abandoned, [])
  | fuel + 1, attempt, delayMs =>
    let r := sendData w attempt ntpSynced token m t
    if r.1 then (Outcome.Sent, r.2)
    else
      let rest := retryLoop w ntpSynced token m t fuel (attempt + 1) (delayMs * 2)
      (rest.1, r.2 ++ Event.pause delayMs :: rest.2)

/-- `sendDataWithRetry` (lines 228-241): up to `MAX_RETRIES` attempts,
initial backoff 1000 ms, doubling after each failure. -/
def sendDataWithRetry (w : World) (ntpSynced : Bool) (token : String)
    (m t : FVal) : Outcome × List Event :=
  retryLoop w ntpSynced token m t MAX_RETRIES 0 1000

/-- `handleButtonEvent` (lines 125-131): read sensors, render once, hold the
display for `DISPLAY_DURATION_MS`, sleep.  No network I/O. -/
def handleButtonEvent (w : World) : List Event :=
  let r := readSensors w
  [Event.displayShow r.1 r.2, Event.pause DISPLAY_DURATION_MS, Event.sleep]

/-- `runFullCycle` (lines 109-120): connect WiFi (unbounded loop, hence the
fuel), sync time, authenticate, read sensors, render, `delay(2000)`,
deliver with retry, deep sleep.  `none` means the WiFi loop was still
spinning when the poll fuel ran out. -/
def runFullCycle (w : World) (mode : Nat) (fuel : Nat) :
    Option (Outcome × List Event) :=
  (connectWiFiAux w.wifi 0 fuel).map (fun ev1 =>
    let sync := syncTimeIfNeeded mode w.timeAt
    let auth := authenticate w
    let r := readSensors w
    let send := sendDataWithRetry w sync.1 auth.1 r.1 r.2
    (send.1,
      ev1 ++ sync.2 ++ auth.2 ++
      [Event.displayShow r.1 r.2, Event.pause 2000] ++
      send.2 ++ [Event.sleep]))

/-- The wake cause reported by `esp_sleep_get_wakeup_cause` (line 80). -/
inductive WakeCause where
  | ext0 : WakeCause
  | timer : WakeCause
deriving DecidableEq, Repr

/-- `setup` (lines 75-85): `initWake` arms both wake sources (EXT0 button
and interval timer, lines 101-104) before the dispatch on the wake cause;
EXT0 takes the button path, anything else the full cycle. -/
def setupCycle (w : World) (cause : WakeCause) (mode : Nat) (fuel : Nat) :
    Option (List Event) :=
  let armEvents := [Event.armExt0, Event.armTimer]
  match cause with
  | WakeCause.ext0 => some (armEvents ++ handleButtonEvent w)
  | WakeCause.timer => (runFullCycle w mode fuel).map (fun r => armEvents ++ r.2)

/-- Modelled from the spec: `getFormattedTime` (called at line 217) is not
present under `src/`.  Per the spec the telemetry timestamp is an ISO-8601
string, which is in particular nonempty; the world oracle `fmtTime` stands
for the function's return value and this predicate records that spec-level
property where a claim depends on it. -/
def specFormattedTime (s : String) : Prop := s.length ≠ 0

/-- A world in which every external interaction behaves nominally:
WiFi connects at once, NTP answers immediately, auth and data POSTs
succeed. -/
def wBase : World :=
  { wifi := fun _ => true
    timeAt := fun _ => 1700000000
    authStatus := fun _ => 200
    tokenField := "tok"
    fmtTime := "2026-01-01T00:00:00Z"
    rawMoisture := 1000
    tempReading := FVal.fin 20
    dataStatus := fun _ => 200 }

/-- A world in which authentication and every delivery attempt are refused
with HTTP 401 and NTP never returns a plausible epoch. -/
def wAllFail : World :=
  { wBase with
    timeAt := fun _ => 0
    authStatus := fun _ => 401
    dataStatus := fun _ => 401 }

/-- A world in which WiFi never reports connected. -/
def wNoWiFi : World :=
  { wBase with wifi := fun _ => false }

/-- A world in which WiFi first reports connected on the third poll. -/
def wWiFiAt2 : World :=
  { wBase with wifi := fun k => decide (k = 2) }

/-! ## Helper lemmas -/

/-- If WiFi never reports connected, `connectWiFi` is still polling whatever
the fuel: the loop at lines 139 has no timeout. -/
theorem connectWiFiAux_never_none :
    ∀ fuel k, connectWiFiAux (fun _ => false) k fuel = none := by
  intro fuel
  induction fuel with
  | zero => intro k; rfl
  | succ fuel ih => intro k; simp [connectWiFiAux, ih]

/-- If WiFi reports connected at poll `k + n`, a fuel of `n + 1` polls is
enough for `connectWiFi` to return. -/
theorem connectWiFiAux_some_of_true (wifi : Nat → Bool) :
    ∀ n k, wifi (k + n) = true →
      ∃ evs, connectWiFiAux wifi k (n + 1) = some evs := by
  intro n
  induction n with
  | zero =>
    intro k h
    rw [Nat.add_zero] at h
    exact ⟨[], by simp [connectWiFiAux, h]⟩
  | succ n ih =>
    intro k h
    by_cases hk : wifi k
    · exact ⟨[], by simp [connectWiFiAux, hk]⟩
    · have h2 : wifi ((k + 1) + n) = true := by
        have he : (k + 1) + n = k + (n + 1) := by omega
        rw [he]; exact h
      obtain ⟨evs, he⟩ := ih (k + 1) h2
      refine ⟨Event.pause 500 :: evs, ?_⟩
      rw [connectWiFiAux, if_neg hk, he]
      rfl

/-- If no `time(nullptr)` read ever reaches the sanity threshold, the NTP
poll reports `ntpSynced = false`. -/
theorem ntpPoll_fst_false (timeAt : Nat → Nat) (h : ∀ k, timeAt k < 8 * 3600) :
    ∀ fuel k, (ntpPoll timeAt k fuel).1 = false := by
  intro fuel
  induction fuel with
  | zero =>
    intro k
    have := h k
    simp [ntpPoll]
    omega
  | succ fuel ih =>
    intro k
    have hk : ¬ (8 * 3600 ≤ timeAt k) := by have := h k; omega
    simp [ntpPoll, hk, ih (k + 1)]

/-- For an in-range reading the first delivery attempt always reaches the
network: the retry trace starts with a telemetry POST. -/
theorem retryLoop_trace_head (w : World) (ntp : Bool) (tok : String)
    (m t : FVal) (fuel attempt delayMs : Nat) (hr : outOfRange m t = false) :
    (retryLoop w ntp tok m t (fuel + 1) attempt delayMs).2
      = Event.dataPost ("Bearer " ++ tok) (mkPayload ntp w.fmtTime m t)
        :: (if (decide (w.dataStatus attempt = 201)
                || decide (w.dataStatus attempt = 200)) = true
            then []
            else Event.pause delayMs
              :: (retryLoop w ntp tok m t fuel (attempt + 1) (delayMs * 2)).2) := by
  by_cases hb : (decide (w.dataStatus attempt = 201)
      || decide (w.dataStatus attempt = 200)) = true
  · simp [retryLoop, sendData, hr, hb]
  · simp [retryLoop, sendData, hr, hb]

/-- A full-cycle trace always ends with the deep-sleep event. -/
theorem trace_getLast_sleep (l1 l2 l3 l4 l5 : List Event) :
    (l1 ++ l2 ++ l3 ++ l4 ++ l5 ++ [Event.sleep]).getLast? = some Event.sleep := by
  rw [List.getLast?_append_cons]
  rfl

/-! ## Claim C1 -/

/-- Claim C1 counterexample: in a world where authentication is refused
(HTTP 401), `jwtToken` is the empty string, yet delivery of an in-bounds
reading still performs 3 network calls — the claimed token precondition
gate (return `Abandoned` with zero network calls) does not exist in
`sendData`/`sendDataWithRetry`. -/
theorem C1_counterexample :
    (authenticate wAllFail).1 = ""
    ∧ networkCalls (sendDataWithRetry wAllFail false (authenticate wAllFail).1
        (FVal.fin 50) (FVal.fin 20)).2 = 3
    ∧ (sendDataWithRetry wAllFail false (authenticate wAllFail).1
        (FVal.fin 50) (FVal.fin 20)).1 = Outcome.Abandoned := by
  decide

/-- Claim C1 (amended): a token-less invocation of delivery is not
short-circuited — for any in-bounds reading the first attempt posts to the
network with the header `Bearer ` followed by the empty token, so at least
one network call is made. -/
theorem C1_no_token_gate (w : World) (ntp : Bool) (m t : FVal)
    (hr : outOfRange m t = false) :
    Event.dataPost ("Bearer " ++ "") (mkPayload ntp w.fmtTime m t)
      ∈ (sendDataWithRetry w ntp "" m t).2
    ∧ 1 ≤ networkCalls (sendDataWithRetry w ntp "" m t).2 := by
  have e : (sendDataWithRetry w ntp "" m t).2
      = Event.dataPost ("Bearer " ++ "") (mkPayload ntp w.fmtTime m t)
        :: (if (decide (w.dataStatus 0 = 201) || decide (w.dataStatus 0 = 200)) = true
            then []
            else Event.pause 1000 :: (retryLoop w ntp "" m t 2 1 2000).2) :=
    retryLoop_trace_head w ntp "" m t 2 0 1000 hr
  rw [e]
  constructor
  · exact List.mem_cons_self _ _
  · simp [networkCalls, isNetworkCall]

/-- Witness for `C1_no_token_gate` at a concrete in-bounds reading. -/
theorem C1_no_token_gate_witness :
    Event.dataPost ("Bearer " ++ "")
        (mkPayload false wAllFail.fmtTime (FVal.fin 50) (FVal.fin 20))
      ∈ (sendDataWithRetry wAllFail false "" (FVal.fin 50) (FVal.fin 20)).2
    ∧ 1 ≤ networkCalls
        (sendDataWithRetry wAllFail false "" (FVal.fin 50) (FVal.fin 20)).2 :=
  C1_no_token_gate wAllFail false (FVal.fin 50) (FVal.fin 20) (by decide)

/-! ## Claim C2 -/

/-- Claim C2 counterexample: with every delivery attempt refused, the retry
loop emits 3 telemetry POSTs but 3 backoff pauses — 1000, 2000 and 4000 ms —
and the very last event of the trace is the 4000 ms pause, i.e. a pause
does occur after the final attempt, contradicting the claimed 2 pauses. -/
theorem C2_counterexample :
    dataPosts (sendDataWithRetry wAllFail false "" (FVal.fin 50) (FVal.fin 20)).2 = 3
    ∧ pausesOf (sendDataWithRetry wAllFail false "" (FVal.fin 50) (FVal.fin 20)).2
        = [1000, 2000, 4000]
    ∧ (sendDataWithRetry wAllFail false "" (FVal.fin 50) (FVal.fin 20)).2.getLast?
        = some (Event.pause 4000) := by
  decide

/-- Claim C2 (amended): when all `MAX_RETRIES = 3` attempts fail on an
in-bounds reading, the loop performs exactly 3 attempts and exactly 3
backoff pauses of 1000, 2000 and 4000 ms, the last of which follows the
final attempt (the `delay(delayMs)` at line 236 runs after every failed
attempt, the third included). -/
theorem C2_all_fail_three_pauses (w : World) (ntp : Bool) (tok : String)
    (m t : FVal) (hr : outOfRange m t = false)
    (hf : ∀ k, w.dataStatus k ≠ 201 ∧ w.dataStatus k ≠ 200) :
    (sendDataWithRetry w ntp tok m t).1 = Outcome.Abandoned
    ∧ dataPosts (sendDataWithRetry w ntp tok m t).2 = 3
    ∧ pausesOf (sendDataWithRetry w ntp tok m t).2 = [1000, 2000, 4000]
    ∧ (sendDataWithRetry w ntp tok m t).2.getLast? = some (Event.pause 4000) := by
  have e : sendDataWithRetry w ntp tok m t
      = (Outcome.Abandoned,
         [Event.dataPost ("Bearer " ++ tok) (mkPayload ntp w.fmtTime m t),
          Event.pause 1000,
          Event.dataPost ("Bearer " ++ tok) (mkPayload ntp w.fmtTime m t),
          Event.pause 2000,
          Event.dataPost ("Bearer " ++ tok) (mkPayload ntp w.fmtTime m t),
          Event.pause 4000]) := by
    simp [sendDataWithRetry, retryLoop, sendData, hr, MAX_RETRIES,
      (hf 0).1, (hf 0).2, (hf 1).1, (hf 1).2, (hf 2).1, (hf 2).2]
  rw [e]
  exact ⟨rfl, rfl, rfl, rfl⟩

/-- Witness for `C2_all_fail_three_pauses` in the all-fail world. -/
theorem C2_all_fail_three_pauses_witness :
    (sendDataWithRetry wAllFail false "" (FVal.fin 50) (FVal.fin 20)).1
        = Outcome.Abandoned
    ∧ dataPosts (sendDataWithRetry wAllFail false "" (FVal.fin 50) (FVal.fin 20)).2 = 3
    ∧ pausesOf (sendDataWithRetry wAllFail false "" (FVal.fin 50) (FVal.fin 20)).2
        = [1000, 2000, 4000]
    ∧ (sendDataWithRetry wAllFail false "" (FVal.fin 50) (FVal.fin 20)).2.getLast?
        = some (Event.pause 4000) :=
  C2_all_fail_three_pauses wAllFail false "" (FVal.fin 50) (FVal.fin 20)
    (by decide)
    (fun k => ⟨show (401 : Int) ≠ 201 by decide, show (401 : Int) ≠ 200 by decide⟩)

/-! ## Claim C3 -/

/-- Claim C3 counterexample: in a world where WiFi never reports connected,
the full cycle has not reached deep sleep after one million WiFi polls
(more than five days of 500 ms waits) — the `connectWiFi` loop at line 139
has no upper bound, so this wake cycle never terminates. -/
theorem C3_counterexample : runFullCycle wNoWiFi 2 1000000 = none := by
  unfold runFullCycle
  rw [show wNoWiFi.wifi = (fun _ => false) from rfl, connectWiFiAux_never_none]
  rfl

/-- Claim C3 (amended): every blocking wait of the cycle other than the
WiFi-connect loop is bounded, so whenever WiFi reports connected at some
finite poll the full cycle terminates and its trace ends with the
deep-sleep transition; with WiFi never connecting the cycle never reaches
sleep. -/
theorem C3_terminates_if_wifi (w : World) (mode n : Nat)
    (h : w.wifi n = true) :
    ∃ r, runFullCycle w mode (n + 1) = some r
      ∧ r.2.getLast? = some Event.sleep := by
  obtain ⟨evs, he⟩ := connectWiFiAux_some_of_true w.wifi n 0 (by simpa using h)
  refine ⟨((sendDataWithRetry w (syncTimeIfNeeded mode w.timeAt).1 (authenticate w).1
        (readSensors w).1 (readSensors w).2).1,
      evs ++ (syncTimeIfNeeded mode w.timeAt).2 ++ (authenticate w).2 ++
        [Event.displayShow (readSensors w).1 (readSensors w).2, Event.pause 2000] ++
        (sendDataWithRetry w (syncTimeIfNeeded mode w.timeAt).1 (authenticate w).1
          (readSensors w).1 (readSensors w).2).2 ++ [Event.sleep]), ?_, ?_⟩
  · unfold runFullCycle
    rw [he]
    rfl
  · exact trace_getLast_sleep evs _ _ _ _

/-- Witness for `C3_terminates_if_wifi`: WiFi connects on the third poll. -/
theorem C3_terminates_if_wifi_witness :
    ∃ r, runFullCycle wWiFiAt2 2 (2 + 1) = some r
      ∧ r.2.getLast? = some Event.sleep :=
  C3_terminates_if_wifi wWiFiAt2 2 2 (by decide)

/-! ## Claim C4 -/

/-- Claim C4 counterexample: a NaN temperature passes the validation gate
(every ordered comparison against NaN is false), so with a 200-responding
collector the delivery of a NaN reading returns `Sent` after one network
call — the claim demands `Abandoned` with zero network calls. -/
theorem C4_counterexample :
    outOfRange (FVal.fin 50) FVal.nan = false
    ∧ sendDataWithRetry wBase false "tok" (FVal.fin 50) FVal.nan
        = (Outcome.Sent,
           [Event.dataPost ("Bearer tok")
              { timestamp := none
                soil_moisture := FVal.fin 50
                temperature := FVal.nan }])
    ∧ networkCalls (sendDataWithRetry wBase false "tok" (FVal.fin 50) FVal.nan).2
        = 1 := by
  decide

/-- Claim C4 (amended): the validation gate of `sendData` does not treat
non-finite values as out-of-bounds — a NaN temperature (or a NaN moisture)
makes every bound comparison false, so the gate passes and the attempt
reaches the network with exactly one POST. -/
theorem C4_nan_passes_gate (w : World) (ntp : Bool) (tok : String) (x : ℚ)
    (hx0 : 0 ≤ x) (hx1 : x ≤ 100) :
    outOfRange (FVal.fin x) FVal.nan = false
    ∧ outOfRange FVal.nan FVal.nan = false
    ∧ networkCalls (sendData w 0 ntp tok (FVal.fin x) FVal.nan).2 = 1 := by
  have h1 : ¬ (x < 0) := not_lt.2 hx0
  have h2 : ¬ (100 < x) := not_lt.2 hx1
  have hgate : outOfRange (FVal.fin x) FVal.nan = false := by
    simp [outOfRange, flt, fgt, h1, h2]
  refine ⟨hgate, rfl, ?_⟩
  simp [sendData, hgate, networkCalls, isNetworkCall]

/-- Witness for `C4_nan_passes_gate` at moisture 50 with NaN temperature. -/
theorem C4_nan_passes_gate_witness :
    outOfRange (FVal.fin 50) FVal.nan = false
    ∧ outOfRange FVal.nan FVal.nan = false
    ∧ networkCalls (sendData wBase 0 false "tok" (FVal.fin 50) FVal.nan).2 = 1 :=
  C4_nan_passes_gate wBase false "tok" 50 (by norm_num) (by norm_num)

/-! ## Claim C5 -/

/-- Claim C5 counterexample: for an out-of-bounds moisture of 150 the
delivery makes zero network calls and does return `Abandoned`, but not
immediately — the retry loop still runs its three attempts and blocks for
the three backoff pauses of 1000, 2000 and 4000 ms first. -/
theorem C5_counterexample :
    sendDataWithRetry wAllFail false "tok" (FVal.fin 150) (FVal.fin 20)
      = (Outcome.Abandoned,
         [Event.pause 1000, Event.pause 2000, Event.pause 4000]) := by
  decide

/-- Claim C5 (amended): for any reading the gate rejects, delivery returns
`Abandoned` and makes zero network calls, but not immediately: the retry
loop still performs its `MAX_RETRIES` failed attempts and blocks for the
backoff pauses 1000, 2000 and 4000 ms before giving up. -/
theorem C5_invalid_reading_no_network (w : World) (ntp : Bool) (tok : String)
    (m t : FVal) (hr : outOfRange m t = true) :
    sendDataWithRetry w ntp tok m t
      = (Outcome.Abandoned,
         [Event.pause 1000, Event.pause 2000, Event.pause 4000])
    ∧ networkCalls (sendDataWithRetry w ntp tok m t).2 = 0 := by
  have e : sendDataWithRetry w ntp tok m t
      = (Outcome.Abandoned,
         [Event.pause 1000, Event.pause 2000, Event.pause 4000]) := by
    simp [sendDataWithRetry, retryLoop, sendData, hr, MAX_RETRIES]
  rw [e]
  exact ⟨rfl, rfl⟩

/-- Witness for `C5_invalid_reading_no_network` at moisture 150. -/
theorem C5_invalid_reading_no_network_witness :
    sendDataWithRetry wBase false "tok" (FVal.fin 150) (FVal.fin 20)
      = (Outcome.Abandoned,
         [Event.pause 1000, Event.pause 2000, Event.pause 4000])
    ∧ networkCalls
        (sendDataWithRetry wBase false "tok" (FVal.fin 150) (FVal.fin 20)).2 = 0 :=
  C5_invalid_reading_no_network wBase false "tok" (FVal.fin 150) (FVal.fin 20)
    (by decide)

/-! ## Claim C6 -/

/-- Claim C6: the telemetry payload carries the `timestamp` field iff
`ntpSynced` (clock trust) holds for this cycle — given that the formatted
time string is nonempty, which the spec guarantees for the ISO-8601
`getFormattedTime` (missing from `src/`, see `specFormattedTime`) — and in
ServerOnly mode (`TIME_SYNC_MODE = 1`) the sync step leaves `ntpSynced`
false, so the payload of every POST omits the timestamp. -/
theorem C6_timestamp_iff_trust (w : World) (ntp : Bool) (tok : String)
    (m t : FVal) (hf : specFormattedTime w.fmtTime)
    (hr : outOfRange m t = false) :
    (sendData w 0 ntp tok m t).2
      = [Event.dataPost ("Bearer " ++ tok) (mkPayload ntp w.fmtTime m t)]
    ∧ (mkPayload ntp w.fmtTime m t).timestamp.isSome = ntp
    ∧ (syncTimeIfNeeded 1 w.timeAt).1 = false
    ∧ (mkPayload false w.fmtTime m t).timestamp = none := by
  have hf2 : w.fmtTime.length ≠ 0 := hf
  refine ⟨by simp [sendData, hr], ?_, rfl, rfl⟩
  cases ntp with
  | false => rfl
  | true => simp [mkPayload, hf2]

/-- Witness for `C6_timestamp_iff_trust` with trust established. -/
theorem C6_timestamp_iff_trust_witness :
    (sendData wBase 0 true "tok" (FVal.fin 50) (FVal.fin 20)).2
      = [Event.dataPost ("Bearer " ++ "tok")
          (mkPayload true wBase.fmtTime (FVal.fin 50) (FVal.fin 20))]
    ∧ (mkPayload true wBase.fmtTime (FVal.fin 50) (FVal.fin 20)).timestamp.isSome
        = true
    ∧ (syncTimeIfNeeded 1 wBase.timeAt).1 = false
    ∧ (mkPayload false wBase.fmtTime (FVal.fin 50) (FVal.fin 20)).timestamp
        = none :=
  C6_timestamp_iff_trust wBase true "tok" (FVal.fin 50) (FVal.fin 20)
    (show wBase.fmtTime.length ≠ 0 by decide) (by decide)

/-! ## Claim C7 -/

/-- Claim C7: on a ButtonPressed (EXT0) wake the cycle performs no network
call of any kind, the display receives exactly one reading pair, both wake
sources (EXT0 button and interval timer) are armed during the cycle, and
the trace ends with the deep-sleep transition. -/
theorem C7_button_cycle (w : World) (mode fuel : Nat) :
    ∃ tr, setupCycle w WakeCause.ext0 mode fuel = some tr
      ∧ networkCalls tr = 0
      ∧ displayCount tr = 1
      ∧ Event.armExt0 ∈ tr
      ∧ Event.armTimer ∈ tr
      ∧ tr.getLast? = some Event.sleep := by
  refine ⟨[Event.armExt0, Event.armTimer,
      Event.displayShow (readSensors w).1 (readSensors w).2,
      Event.pause DISPLAY_DURATION_MS, Event.sleep],
    rfl, rfl, rfl, ?_, ?_, rfl⟩
  · exact List.mem_cons_self _ _
  · simp

/-! ## Claim C8 -/

/-- Claim C8: in Hybrid mode (`TIME_SYNC_MODE = 2`), when no network-time
read passes the sanity check within the polling window, the cycle falls
back to ServerOnly semantics — `ntpSynced` is false, equal to the ServerOnly
flag, and the whole delivery (every payload included) is identical to the
ServerOnly delivery of the same reading. -/
theorem C8_hybrid_falls_back (w : World) (tok : String) (m t : FVal)
    (h : ∀ k, w.timeAt k < 8 * 3600) :
    (syncTimeIfNeeded 2 w.timeAt).1 = false
    ∧ (syncTimeIfNeeded 2 w.timeAt).1 = (syncTimeIfNeeded 1 w.timeAt).1
    ∧ sendDataWithRetry w (syncTimeIfNeeded 2 w.timeAt).1 tok m t
      = sendDataWithRetry w (syncTimeIfNeeded 1 w.timeAt).1 tok m t := by
  have h2 : (syncTimeIfNeeded 2 w.timeAt).1 = false := by
    have := ntpPoll_fst_false w.timeAt h 10 0
    simpa [syncTimeIfNeeded] using this
  have h1 : (syncTimeIfNeeded 1 w.timeAt).1 = false := rfl
  exact ⟨h2, by rw [h1, h2], by rw [h1, h2]⟩

/-- Witness for `C8_hybrid_falls_back` with a clock stuck at epoch 0. -/
theorem C8_hybrid_falls_back_witness :
    (syncTimeIfNeeded 2 wAllFail.timeAt).1 = false
    ∧ (syncTimeIfNeeded 2 wAllFail.timeAt).1 = (syncTimeIfNeeded 1 wAllFail.timeAt).1
    ∧ sendDataWithRetry wAllFail (syncTimeIfNeeded 2 wAllFail.timeAt).1 "tok"
        (FVal.fin 50) (FVal.fin 20)
      = sendDataWithRetry wAllFail (syncTimeIfNeeded 1 wAllFail.timeAt).1 "tok"
        (FVal.fin 50) (FVal.fin 20) :=
  C8_hybrid_falls_back wAllFail "tok" (FVal.fin 50) (FVal.fin 20)
    (fun k => show (0 : Nat) < 8 * 3600 by decide)

/-! ## Claim C9 -/

/-- Claim C9: when the first delivery attempt is answered with HTTP 201 or
200, delivery returns `Sent` after exactly one network call and zero
backoff pauses. -/
theorem C9_first_attempt_success (w : World) (ntp : Bool) (tok : String)
    (m t : FVal) (hr : outOfRange m t = false)
    (hs : w.dataStatus 0 = 201 ∨ w.dataStatus 0 = 200) :
    sendDataWithRetry w ntp tok m t
      = (Outcome.Sent,
         [Event.dataPost ("Bearer " ++ tok) (mkPayload ntp w.fmtTime m t)])
    ∧ networkCalls (sendDataWithRetry w ntp tok m t).2 = 1
    ∧ pausesOf (sendDataWithRetry w ntp tok m t).2 = [] := by
  have e : sendDataWithRetry w ntp tok m t
      = (Outcome.Sent,
         [Event.dataPost ("Bearer " ++ tok) (mkPayload ntp w.fmtTime m t)]) := by
    rcases hs with hs | hs <;>
      simp [sendDataWithRetry, retryLoop, sendData, hr, hs, MAX_RETRIES]
  rw [e]
  exact ⟨rfl, rfl, rfl⟩

/-- Witness for `C9_first_attempt_success` in the nominal world. -/
theorem C9_first_attempt_success_witness :
    sendDataWithRetry wBase false "tok" (FVal.fin 50) (FVal.fin 20)
      = (Outcome.Sent,
         [Event.dataPost ("Bearer " ++ "tok")
            (mkPayload false wBase.fmtTime (FVal.fin 50) (FVal.fin 20))])
    ∧ networkCalls
        (sendDataWithRetry wBase false "tok" (FVal.fin 50) (FVal.fin 20)).2 = 1
    ∧ pausesOf
        (sendDataWithRetry wBase false "tok" (FVal.fin 50) (FVal.fin 20)).2 = [] :=
  C9_first_attempt_success wBase false "tok" (FVal.fin 50) (FVal.fin 20)
    (by decide) (Or.inr (by decide))

/-! ## Claim C10 -/

/-- Claim C10: whenever the first authentication POST returns a non-OK
status, the failure log line re-invokes `http.POST(body)`, so the device
credentials are posted to the auth endpoint exactly twice, the second
response being used for nothing but the logged status code — `jwtToken`
stays empty. -/
theorem C10_failed_auth_posts_twice (w : World) (h : w.authStatus 0 ≠ 200) :
    authenticate w = ("", [Event.authPost authBody, Event.authPost authBody])
    ∧ networkCalls (authenticate w).2 = 2 := by
  have e : authenticate w
      = ("", [Event.authPost authBody, Event.authPost authBody]) := by
    simp [authenticate, h]
  rw [e]
  exact ⟨rfl, rfl⟩

/-- Witness for `C10_failed_auth_posts_twice` with a 401 auth endpoint. -/
theorem C10_failed_auth_posts_twice_witness :
    authenticate wAllFail
      = ("", [Event.authPost authBody, Event.authPost authBody])
    ∧ networkCalls (authenticate wAllFail).2 = 2 :=
  C10_failed_auth_posts_twice wAllFail (by decide)

end SoilLogger
